import Mathlib

/-!
Verification of the Wake-Sleep speech-to-text repository.

This file gives a shallow embedding of the two source modules and proves
properties of the embedded definitions.

Embedded modules:
* `src/useSpeechToText.ts` — the recognition session adapter: per-session
  state (`isListening`, `transcript`, `transcriptHistory`, `error`,
  `isSupported`) and its handlers (`onresult`, `onerror`, `onend`) and
  operations (`startListening`, `stopListening`).
* `src/useWakeWordDetection.ts` — the wake/sleep coordinator: two adapter
  instances, the wake-word monitor effect, the sleep-word monitor effect,
  the burst-restart effect, the `start`/`stop`/`reset` operations and the
  derived `error` output.

Modelling conventions:
* The browser recognition capability is folded synchronously into the
  adapter operations: `startListening` includes the capability firing
  `onstart` (`setIsListening(true); setError(null)`, source lines 62-66),
  and `stopListening` includes the capability firing `onend`
  (`setIsListening(false); setTranscript('')`, source lines 101-105).
  Unsolicited `onend`/`onerror` events from the capability are separate
  events of the coordinator-level step function.
* `Date.now()` is modelled by an explicit `now : Nat` argument to the
  result-event handler.
* React effect scheduling: a result event runs the monitor effect watching
  that adapter's history immediately (the render caused by the history
  update).  In addition, the two monitor effects' dependency arrays
  (source lines 84 and 122) contain `isActive` and the adapter objects
  themselves, and `useSpeechToText` returns a fresh object literal on
  every render (lines 138-147), so each monitor effect re-runs after
  every render, with whatever stale history its adapter still holds.
  These re-runs are modelled by the explicit events `wakeMonitorRun` and
  `sleepMonitorRun`, which run an effect body with no accompanying result
  event and may occur at any point; the schedule the real program forces
  (a re-run after every render) is one of the modelled schedules.  The
  burst-restart effect (which registers a `clearTimeout` cleanup) is
  modelled by a timer event whose guard re-checks the effect's condition
  at firing time.  The two hand-off `setTimeout` callbacks (source lines
  78-80 and 118), which register no cleanup, are modelled by
  pending-timer flags plus explicit timer-fired events whose bodies run
  the callbacks exactly as written.
-/

/-- Entry of an adapter's transcript history (interface `TranscriptEntry`,
`src/useSpeechToText.ts` lines 3-8). -/
structure TranscriptEntry where
  id : String
  text : String
  timestamp : Nat
  isFinal : Bool
deriving DecidableEq

/-- State of one recognition session adapter (`useSpeechToText` state
hooks, lines 39-45): `isListening`, `transcript` (the live text),
`transcriptHistory`, `error`, plus the runtime support probe. -/
structure SpeechState where
  isListening : Bool
  transcript : String
  transcriptHistory : List TranscriptEntry
  error : Option String
  isSupported : Bool
deriving DecidableEq

/-- Initial adapter state (`useState` initialisers, lines 39-42), in a
runtime where the capability is supported. -/
def initialSpeechState : SpeechState :=
  { isListening := false, transcript := "", transcriptHistory := [], error := none,
    isSupported := true }

/-- Check that `l1` is a prefix of `l2`, by structural recursion (kernel
executable). -/
def listPrefixCheck : List Char → List Char → Bool
  | [], _ => true
  | _ :: _, [] => false
  | a :: l1, b :: l2 => a == b && listPrefixCheck l1 l2

/-- Check that `needle` occurs as a contiguous sublist of `haystack`, by
structural recursion (kernel executable). -/
def listInfixCheck (needle haystack : List Char) : Bool :=
  match haystack with
  | [] => needle.isEmpty
  | _ :: t => listPrefixCheck needle haystack || listInfixCheck needle t

/-- JavaScript `haystack.includes(needle)`: substring containment. -/
def jsIncludes (haystack needle : String) : Bool :=
  listInfixCheck needle.data haystack.data

/-- JavaScript `s.toLowerCase()`, modelled characterwise. -/
def jsToLower (s : String) : String :=
  ⟨s.data.map Char.toLower⟩

/-- JavaScript `s.trim()`: strip leading and trailing whitespace, modelled
on the character list. -/
def jsTrim (s : String) : String :=
  ⟨((s.data.dropWhile Char.isWhitespace).reverse.dropWhile Char.isWhitespace).reverse⟩

/-- One recognized piece of a result event: `event.results[i][0].transcript`
together with `event.results[i].isFinal` (lines 72-79). -/
structure ResultPiece where
  transcript : String
  isFinal : Bool
deriving DecidableEq

/-- Accumulation of the interim pieces of a result event
(`interimTranscript += transcriptPiece`, line 77), in index order. -/
def interimTranscript (pieces : List ResultPiece) : String :=
  pieces.foldl (fun acc p => if p.isFinal then acc else acc ++ p.transcript) ""

/-- Accumulation of the final pieces of a result event
(`finalTranscript += transcriptPiece + ' '`, line 75), in index order. -/
def finalTranscript (pieces : List ResultPiece) : String :=
  pieces.foldl (fun acc p => if p.isFinal then acc ++ p.transcript ++ " " else acc) ""

/-- Handler `recognition.onresult` (lines 68-93).  The live transcript is
set to `interimTranscript || finalTranscript` (JavaScript `||`: the empty
string is falsy), and when `finalTranscript` is truthy (non-empty) exactly
one entry is appended to the history with id `transcript-${Date.now()}`,
the trimmed final text, and the current timestamp. -/
def onresult (now : Nat) (pieces : List ResultPiece) (s : SpeechState) : SpeechState :=
  let interim := interimTranscript pieces
  let finalText := finalTranscript pieces
  let s1 := { s with transcript := if interim = "" then finalText else interim }
  if finalText = "" then s1
  else
    { s1 with transcriptHistory := s1.transcriptHistory ++
        [{ id := "transcript-" ++ toString now, text := jsTrim finalText,
           timestamp := now, isFinal := true }] }

/-- Handler `recognition.onerror` (lines 95-99): the error message is the
template literal concatenating the prefix with the reported reason, and the
listening flag is cleared. -/
def onerror (reason : String) (s : SpeechState) : SpeechState :=
  { s with error := some ("Error: " ++ reason), isListening := false }

/-- Handler `recognition.onend` (lines 101-105): clears the listening flag
and the live transcript. -/
def onend (s : SpeechState) : SpeechState :=
  { s with isListening := false, transcript := "" }

/-- Operation `startListening` (lines 116-130), with the capability's
`onstart` acknowledgement folded in (lines 62-66): when unsupported only
the error is set; when supported and not yet listening the session starts,
setting `isListening` and clearing the error; otherwise a no-op. -/
def startListening (s : SpeechState) : SpeechState :=
  if s.isSupported = false then
    { s with error := some "Speech recognition is not supported" }
  else if s.isListening = false then
    { s with isListening := true, error := none }
  else s

/-- Operation `stopListening` (lines 132-136), with the capability's
`onend` acknowledgement folded in (lines 101-105): when listening, the
session stops, clearing `isListening` and the live transcript; otherwise a
no-op. -/
def stopListening (s : SpeechState) : SpeechState :=
  if s.isListening then { s with isListening := false, transcript := "" } else s

/-- Entry of the coordinator's merged history
(`allTranscripts : Array<{ id; text; timestamp }>`,
`src/useWakeWordDetection.ts` line 32). -/
structure WakeTranscript where
  id : String
  text : String
  timestamp : Nat
deriving DecidableEq

/-- The coordinator's status values (line 31). -/
inductive CoordStatus where
  | idle
  | waitingForWakeWord
  | activeTranscription
  | error
deriving DecidableEq

/-- Coordinator configuration (`WakeWordConfig`, lines 4-8). -/
structure WakeWordConfig where
  wakeWord : String
  sleepWord : String
  language : String

/-- Full coordinator state: the three coordinator state hooks (lines
30-32), the two adapter instances (lines 35-46), and one pending flag per
hand-off `setTimeout` (lines 78-80 and 118). -/
structure CoordState where
  isActive : Bool
  status : CoordStatus
  allTranscripts : List WakeTranscript
  wakeWordSpeech : SpeechState
  transcriptionSpeech : SpeechState
  pendingTranscriptionStart : Bool
  pendingWakeRestart : Bool
deriving DecidableEq

/-- Initial coordinator state (lines 30-32 with both adapters fresh). -/
def coordInit : CoordState :=
  { isActive := false, status := .idle, allTranscripts := [],
    wakeWordSpeech := initialSpeechState, transcriptionSpeech := initialSpeechState,
    pendingTranscriptionStart := false, pendingWakeRestart := false }

/-- Updater passed to `setAllTranscripts` (lines 96-109): skip the entry
when its id already occurs, otherwise append `{ id, text, timestamp }`. -/
def mergeTranscript (prev : List WakeTranscript) (t : TranscriptEntry) : List WakeTranscript :=
  if prev.any (fun x => x.id == t.id) then prev
  else prev ++ [{ id := t.id, text := t.text, timestamp := t.timestamp }]

/-- Wake-word monitor effect (lines 63-84): when not active and the
wake-word adapter is listening, examine the most recent entry of its
history; if its lowercased, trimmed text contains the lowercased wake word,
stop the wake-word adapter, become active with status
`active-transcription`, and schedule the deferred transcription start. -/
def wakeMonitor (wakeWord : String) (s : CoordState) : CoordState :=
  if s.isActive = false ∧ s.wakeWordSpeech.isListening = true then
    match s.wakeWordSpeech.transcriptHistory.getLast? with
    | none => s
    | some lastTranscript =>
      let text := jsTrim (jsToLower lastTranscript.text)
      if jsIncludes text (jsToLower wakeWord) then
        { s with wakeWordSpeech := stopListening s.wakeWordSpeech,
                 isActive := true, status := .activeTranscription,
                 pendingTranscriptionStart := true }
      else s
  else s

/-- Sleep-word monitor effect (lines 87-122): when active and the
transcription adapter is listening, examine the most recent entry of its
history; merge it into `allTranscripts` (duplicate ids skipped); then, if
its lowercased, trimmed text contains the lowercased sleep word, become
inactive with status `waiting-for-wake-word`, stop the transcription
adapter, and schedule the deferred wake-word restart. -/
def sleepMonitor (sleepWord : String) (s : CoordState) : CoordState :=
  if s.isActive = true ∧ s.transcriptionSpeech.isListening = true then
    match s.transcriptionSpeech.transcriptHistory.getLast? with
    | none => s
    | some lastTranscript =>
      let s1 := { s with allTranscripts := mergeTranscript s.allTranscripts lastTranscript }
      let text := jsTrim (jsToLower lastTranscript.text)
      if jsIncludes text (jsToLower sleepWord) then
        { s1 with isActive := false, status := .waitingForWakeWord,
                  transcriptionSpeech := stopListening s1.transcriptionSpeech,
                  pendingWakeRestart := true }
      else s1
  else s

/-- Events driving the coordinator: the three public operations, a result,
error or unsolicited-end event on either adapter, the three timers
(deferred transcription start of line 78, deferred wake restart of line
118, and the burst-restart timer of lines 49-60), and a re-run of either
monitor effect without a new result event — forced by the effects'
dependency arrays (lines 84 and 122), which hold `isActive` and the
per-render adapter objects, so the effect bodies re-execute on every
render over whatever history the adapters already hold. -/
inductive CoordEvent where
  | opStart
  | opStop
  | opReset
  | wakeResult (now : Nat) (pieces : List ResultPiece)
  | transcriptionResult (now : Nat) (pieces : List ResultPiece)
  | wakeErrorEv (reason : String)
  | transcriptionErrorEv (reason : String)
  | wakeEnd
  | transcriptionEnd
  | transcriptionStartTimer
  | wakeRestartTimer
  | burstRestartTimer
  | wakeMonitorRun
  | sleepMonitorRun

/-- One step of the coordinator.  Each arm is the corresponding source
handler: `start` (lines 124-128), `stop` (lines 130-136), `reset` (lines
138-141); a result event runs the adapter's `onresult` and then the
monitor effect watching that adapter's history; error and end events run
the adapter handlers; the two hand-off timers run their callbacks
(`transcriptionSpeech.startListening()` / `wakeWordSpeech.startListening()`)
unconditionally, exactly as the source callbacks are written; the
burst-restart timer re-checks its effect's condition (lines 50-52) because
that effect registers a cleanup cancelling the timer. -/
def coordStep (cfg : WakeWordConfig) (s : CoordState) : CoordEvent → CoordState
  | .opStart =>
      { s with status := .waitingForWakeWord,
               wakeWordSpeech := startListening s.wakeWordSpeech }
  | .opStop =>
      { s with status := .idle, isActive := false,
               wakeWordSpeech := stopListening s.wakeWordSpeech,
               transcriptionSpeech := stopListening s.transcriptionSpeech }
  | .opReset => { s with allTranscripts := [] }
  | .wakeResult now pieces =>
      wakeMonitor cfg.wakeWord
        { s with wakeWordSpeech := onresult now pieces s.wakeWordSpeech }
  | .transcriptionResult now pieces =>
      sleepMonitor cfg.sleepWord
        { s with transcriptionSpeech := onresult now pieces s.transcriptionSpeech }
  | .wakeErrorEv reason => { s with wakeWordSpeech := onerror reason s.wakeWordSpeech }
  | .transcriptionErrorEv reason =>
      { s with transcriptionSpeech := onerror reason s.transcriptionSpeech }
  | .wakeEnd => { s with wakeWordSpeech := onend s.wakeWordSpeech }
  | .transcriptionEnd => { s with transcriptionSpeech := onend s.transcriptionSpeech }
  | .transcriptionStartTimer =>
      if s.pendingTranscriptionStart then
        { s with pendingTranscriptionStart := false,
                 transcriptionSpeech := startListening s.transcriptionSpeech }
      else s
  | .wakeRestartTimer =>
      if s.pendingWakeRestart then
        { s with pendingWakeRestart := false,
                 wakeWordSpeech := startListening s.wakeWordSpeech }
      else s
  | .burstRestartTimer =>
      if s.isActive = false ∧ s.status = .waitingForWakeWord ∧
         s.wakeWordSpeech.isListening = false ∧ s.transcriptionSpeech.isListening = false then
        { s with wakeWordSpeech := startListening s.wakeWordSpeech }
      else s
  | .wakeMonitorRun => wakeMonitor cfg.wakeWord s
  | .sleepMonitorRun => sleepMonitor cfg.sleepWord s

/-- JavaScript `a || b` on the two nullable error strings (line 148): a
null or empty left operand is falsy. -/
def jsOrError : Option String → Option String → Option String
  | none, b => b
  | some e, b => if e = "" then b else some e

/-- The coordinator's `error` output,
`wakeWordSpeech.error || transcriptionSpeech.error` (line 148). -/
def errorOutput (s : CoordState) : Option String :=
  jsOrError s.wakeWordSpeech.error s.transcriptionSpeech.error

/-- States of the coordinator reachable from the initial state by the
public operations, adapter events and timer events. -/
inductive Reachable (cfg : WakeWordConfig) : CoordState → Prop where
  | init : Reachable cfg coordInit
  | next : ∀ {s : CoordState} (e : CoordEvent), Reachable cfg s → Reachable cfg (coordStep cfg s e)

/-- Configuration used by the concrete scenarios: wake word `hi`, sleep
word `bye` (the README's example configuration). -/
def demoCfg : WakeWordConfig := { wakeWord := "hi", sleepWord := "bye", language := "en-US" }

section HelperLemmas

/-- Result-event processing never changes the listening flag. -/
@[simp] theorem onresult_isListening (now : Nat) (pieces : List ResultPiece) (s : SpeechState) :
    (onresult now pieces s).isListening = s.isListening := by
  unfold onresult; dsimp only; split <;> rfl

/-- Result-event processing never changes the error field. -/
@[simp] theorem onresult_error (now : Nat) (pieces : List ResultPiece) (s : SpeechState) :
    (onresult now pieces s).error = s.error := by
  unfold onresult; dsimp only; split <;> rfl

/-- Result-event processing never changes the support probe. -/
@[simp] theorem onresult_isSupported (now : Nat) (pieces : List ResultPiece) (s : SpeechState) :
    (onresult now pieces s).isSupported = s.isSupported := by
  unfold onresult; dsimp only; split <;> rfl

/-- Stopping always leaves the adapter not listening. -/
@[simp] theorem stopListening_isListening (s : SpeechState) :
    (stopListening s).isListening = false := by
  unfold stopListening; split <;> simp_all

/-- Stopping is idempotent on the adapter state. -/
theorem stopListening_idem (s : SpeechState) :
    stopListening (stopListening s) = stopListening s := by
  unfold stopListening; split <;> simp_all

/-- Stopping never changes the history, the error or the support probe. -/
@[simp] theorem stopListening_transcriptHistory (s : SpeechState) :
    (stopListening s).transcriptHistory = s.transcriptHistory := by
  unfold stopListening; split <;> rfl

@[simp] theorem stopListening_error (s : SpeechState) :
    (stopListening s).error = s.error := by
  unfold stopListening; split <;> rfl

@[simp] theorem stopListening_isSupported (s : SpeechState) :
    (stopListening s).isSupported = s.isSupported := by
  unfold stopListening; split <;> rfl

@[simp] theorem startListening_isSupported (s : SpeechState) :
    (startListening s).isSupported = s.isSupported := by
  unfold startListening; split <;> [rfl; skip]; split <;> rfl

end HelperLemmas

/-- Coordinator state after `start()` followed by the wake-word adapter
finalizing `hi there`: the README scenario's activation step. -/
def demoWakeState : CoordState :=
  coordStep demoCfg (coordStep demoCfg coordInit .opStart) (.wakeResult 1 [⟨"hi there", true⟩])

/-- C3: after the coordinator's `stop()` is called in any phase, both
adapters report `listening = false` and the coordinator's phase is Idle
(status `idle`, `isActive` false); calling `stop()` a second time from
that state changes nothing. -/
theorem stop_yields_idle_and_is_idempotent (cfg : WakeWordConfig) (s : CoordState) :
    (coordStep cfg s .opStop).wakeWordSpeech.isListening = false ∧
    (coordStep cfg s .opStop).transcriptionSpeech.isListening = false ∧
    (coordStep cfg s .opStop).status = CoordStatus.idle ∧
    (coordStep cfg s .opStop).isActive = false ∧
    coordStep cfg (coordStep cfg s .opStop) .opStop = coordStep cfg s .opStop := by
  refine ⟨by simp [coordStep], by simp [coordStep], rfl, rfl, ?_⟩
  cases s
  simp [coordStep, stopListening_idem]

/-- C9: `reset()` empties the merged history and changes nothing else:
status, `isActive` and both complete adapter states are untouched. -/
theorem reset_clears_history_and_nothing_else (cfg : WakeWordConfig) (s : CoordState) :
    (coordStep cfg s .opReset).allTranscripts = [] ∧
    (coordStep cfg s .opReset).status = s.status ∧
    (coordStep cfg s .opReset).isActive = s.isActive ∧
    (coordStep cfg s .opReset).wakeWordSpeech = s.wakeWordSpeech ∧
    (coordStep cfg s .opReset).transcriptionSpeech = s.transcriptionSpeech := by
  exact ⟨rfl, rfl, rfl, rfl, rfl⟩

/-- C4 failing input: `start()`, wake word detected (scheduling the 200 ms
hand-off timer), then `stop()`, then the pending timer fires.  The timer
callback (source line 79) calls `transcriptionSpeech.startListening()`
without any phase or liveness check, so the transcription adapter becomes
listening again while the coordinator is Idle and `isActive` is false,
with no new `start()` call. -/
theorem fired_handoff_timer_after_stop_restarts_transcription :
    (coordStep demoCfg (coordStep demoCfg demoWakeState .opStop)
        .transcriptionStartTimer).transcriptionSpeech.isListening = true ∧
    (coordStep demoCfg (coordStep demoCfg demoWakeState .opStop)
        .transcriptionStartTimer).status = CoordStatus.idle ∧
    (coordStep demoCfg (coordStep demoCfg demoWakeState .opStop)
        .transcriptionStartTimer).isActive = false := by
  decide

/-- C6 counterexample: a result event whose only piece is final.  The
claim says the live transcript is cleared by such an event; the source
sets it to `interimTranscript || finalTranscript` (line 81), which for an
event with no interim pieces is the final text, here `"hello "`. -/
theorem final_only_event_does_not_clear_transcript :
    ¬ ((onresult 0 [⟨"hello", true⟩] initialSpeechState).transcript = "") := by
  decide

/-- C6 amended: after a result event the live transcript equals the
concatenation of the interim pieces when that is non-empty, and otherwise
equals the space-joined concatenation of the final pieces — it is not
cleared when the event carries final pieces but no interim pieces. -/
theorem onresult_transcript_policy (now : Nat) (pieces : List ResultPiece) (s : SpeechState) :
    (interimTranscript pieces ≠ "" →
      (onresult now pieces s).transcript = interimTranscript pieces) ∧
    (interimTranscript pieces = "" →
      (onresult now pieces s).transcript = finalTranscript pieces) := by
  constructor <;> intro h <;> unfold onresult <;> dsimp only <;> split <;> simp [h]

/-- Witness for `onresult_transcript_policy` at a concrete mixed event:
the interim piece `a` is kept as the live transcript. -/
theorem onresult_transcript_policy_witness :
    (onresult 0 [⟨"a", false⟩, ⟨"b", true⟩] initialSpeechState).transcript = "a" := by
  have h := (onresult_transcript_policy 0 [⟨"a", false⟩, ⟨"b", true⟩] initialSpeechState).1
  simpa using h (by decide)

section MonitorLemmas

/-- The wake-word monitor either leaves status and `isActive` unchanged or
performs the activation transition. -/
theorem wakeMonitor_status_isActive (w : String) (s : CoordState) :
    ((wakeMonitor w s).status = s.status ∧ (wakeMonitor w s).isActive = s.isActive) ∨
    ((wakeMonitor w s).status = CoordStatus.activeTranscription ∧
      (wakeMonitor w s).isActive = true) := by
  unfold wakeMonitor
  split
  · split
    · exact Or.inl ⟨rfl, rfl⟩
    · dsimp only
      split
      · exact Or.inr ⟨rfl, rfl⟩
      · exact Or.inl ⟨rfl, rfl⟩
  · exact Or.inl ⟨rfl, rfl⟩

/-- The sleep-word monitor either leaves status and `isActive` unchanged
or performs the deactivation transition. -/
theorem sleepMonitor_status_isActive (w : String) (s : CoordState) :
    ((sleepMonitor w s).status = s.status ∧ (sleepMonitor w s).isActive = s.isActive) ∨
    ((sleepMonitor w s).status = CoordStatus.waitingForWakeWord ∧
      (sleepMonitor w s).isActive = false) := by
  unfold sleepMonitor
  split
  · split
    · exact Or.inl ⟨rfl, rfl⟩
    · dsimp only
      split
      · exact Or.inr ⟨rfl, rfl⟩
      · exact Or.inl ⟨rfl, rfl⟩
  · exact Or.inl ⟨rfl, rfl⟩

/-- The wake-word monitor never touches the merged history. -/
theorem wakeMonitor_allTranscripts (w : String) (s : CoordState) :
    (wakeMonitor w s).allTranscripts = s.allTranscripts := by
  unfold wakeMonitor
  split
  · split
    · rfl
    · dsimp only
      split <;> rfl
  · rfl

/-- The sleep-word monitor changes the merged history at most by one
duplicate-guarded merge. -/
theorem sleepMonitor_allTranscripts (w : String) (s : CoordState) :
    (sleepMonitor w s).allTranscripts = s.allTranscripts ∨
    ∃ t, (sleepMonitor w s).allTranscripts = mergeTranscript s.allTranscripts t := by
  unfold sleepMonitor
  split
  · split
    · exact Or.inl rfl
    · rename_i lastT _
      dsimp only
      split
      · exact Or.inr ⟨lastT, rfl⟩
      · exact Or.inr ⟨lastT, rfl⟩
  · exact Or.inl rfl

/-- The wake-word monitor never changes the wake-word adapter's error. -/
theorem wakeMonitor_wake_error (w : String) (s : CoordState) :
    (wakeMonitor w s).wakeWordSpeech.error = s.wakeWordSpeech.error := by
  unfold wakeMonitor
  split
  · split
    · rfl
    · dsimp only
      split
      · exact stopListening_error _
      · rfl
  · rfl

/-- The wake-word monitor never touches the transcription adapter. -/
theorem wakeMonitor_transcription (w : String) (s : CoordState) :
    (wakeMonitor w s).transcriptionSpeech = s.transcriptionSpeech := by
  unfold wakeMonitor
  split
  · split
    · rfl
    · dsimp only
      split <;> rfl
  · rfl

/-- The sleep-word monitor never touches the wake-word adapter. -/
theorem sleepMonitor_wake (w : String) (s : CoordState) :
    (sleepMonitor w s).wakeWordSpeech = s.wakeWordSpeech := by
  unfold sleepMonitor
  split
  · split
    · rfl
    · dsimp only
      split <;> rfl
  · rfl

/-- The sleep-word monitor never changes the transcription adapter's
error. -/
theorem sleepMonitor_transcription_error (w : String) (s : CoordState) :
    (sleepMonitor w s).transcriptionSpeech.error = s.transcriptionSpeech.error := by
  unfold sleepMonitor
  split
  · split
    · rfl
    · dsimp only
      split
      · exact stopListening_error _
      · rfl
  · rfl

/-- The error set by `startListening` is either untouched, cleared, or the
unsupported message. -/
theorem startListening_error_cases (s : SpeechState) :
    (startListening s).error = s.error ∨ (startListening s).error = none ∨
    (startListening s).error = some "Speech recognition is not supported" := by
  unfold startListening
  split
  · exact Or.inr (Or.inr rfl)
  · split
    · exact Or.inr (Or.inl rfl)
    · exact Or.inl rfl

/-- An unsolicited session end never changes the error. -/
@[simp] theorem onend_error (s : SpeechState) : (onend s).error = s.error := rfl

/-- The adapter's error message template is never the empty string. -/
theorem errorMessage_ne_empty (reason : String) : ("Error: " ++ reason) ≠ "" := by
  intro h
  have hlen := congrArg String.length h
  rw [String.length_append] at hlen
  have h7 : ("Error: " : String).length = 7 := by decide
  have h0 : ("" : String).length = 0 := by decide
  omega

end MonitorLemmas

section InvariantLemmas

/-- Merging preserves uniqueness of the merged-history ids. -/
theorem mergeTranscript_nodup (prev : List WakeTranscript) (t : TranscriptEntry)
    (h : (prev.map WakeTranscript.id).Nodup) :
    ((mergeTranscript prev t).map WakeTranscript.id).Nodup := by
  unfold mergeTranscript
  split
  · exact h
  · rename_i hany
    have hnot : t.id ∉ prev.map WakeTranscript.id := by
      intro hmem
      rcases List.mem_map.1 hmem with ⟨x, hx, hxid⟩
      exact hany (List.any_eq_true.2 ⟨x, hx, by simp [hxid]⟩)
    rw [List.map_append]
    simp only [List.map_cons, List.map_nil]
    simp [List.nodup_append, h, hnot]

/-- One coordinator step preserves uniqueness of the merged-history ids. -/
theorem coordStep_nodup (cfg : WakeWordConfig) (s : CoordState) (e : CoordEvent)
    (ih : (s.allTranscripts.map WakeTranscript.id).Nodup) :
    ((coordStep cfg s e).allTranscripts.map WakeTranscript.id).Nodup := by
  cases e with
  | opStart => exact ih
  | opStop => exact ih
  | opReset => simp [coordStep]
  | wakeResult now pieces =>
      have h := wakeMonitor_allTranscripts cfg.wakeWord
        { s with wakeWordSpeech := onresult now pieces s.wakeWordSpeech }
      show ((wakeMonitor _ _).allTranscripts.map WakeTranscript.id).Nodup
      rw [h]
      exact ih
  | transcriptionResult now pieces =>
      rcases sleepMonitor_allTranscripts cfg.sleepWord
        { s with transcriptionSpeech := onresult now pieces s.transcriptionSpeech } with h | ⟨t, h⟩
      · show ((sleepMonitor _ _).allTranscripts.map WakeTranscript.id).Nodup
        rw [h]; exact ih
      · show ((sleepMonitor _ _).allTranscripts.map WakeTranscript.id).Nodup
        rw [h]; exact mergeTranscript_nodup _ _ ih
  | wakeErrorEv r => exact ih
  | transcriptionErrorEv r => exact ih
  | wakeEnd => exact ih
  | transcriptionEnd => exact ih
  | transcriptionStartTimer => simp only [coordStep]; split <;> exact ih
  | wakeRestartTimer => simp only [coordStep]; split <;> exact ih
  | burstRestartTimer => simp only [coordStep]; split <;> exact ih
  | wakeMonitorRun =>
      show ((wakeMonitor cfg.wakeWord s).allTranscripts.map WakeTranscript.id).Nodup
      rw [wakeMonitor_allTranscripts]
      exact ih
  | sleepMonitorRun =>
      rcases sleepMonitor_allTranscripts cfg.sleepWord s with h | ⟨t, h⟩
      · show ((sleepMonitor cfg.sleepWord s).allTranscripts.map WakeTranscript.id).Nodup
        rw [h]; exact ih
      · show ((sleepMonitor cfg.sleepWord s).allTranscripts.map WakeTranscript.id).Nodup
        rw [h]; exact mergeTranscript_nodup _ _ ih

/-- In every reachable coordinator state the merged-history ids are
pairwise distinct. -/
theorem reach_nodup (cfg : WakeWordConfig) (s : CoordState) (h : Reachable cfg s) :
    (s.allTranscripts.map WakeTranscript.id).Nodup := by
  induction h with
  | init => simp [coordInit]
  | next e h ih => exact coordStep_nodup _ _ e ih

/-- One coordinator step preserves the two status facts: the status is
never the `error` value, and status `active-transcription` forces
`isActive`. -/
theorem coordStep_status_facts (cfg : WakeWordConfig) (s : CoordState) (e : CoordEvent)
    (ih : s.status ≠ CoordStatus.error ∧
      (s.status = CoordStatus.activeTranscription → s.isActive = true)) :
    (coordStep cfg s e).status ≠ CoordStatus.error ∧
    ((coordStep cfg s e).status = CoordStatus.activeTranscription →
      (coordStep cfg s e).isActive = true) := by
  cases e with
  | opStart => exact ⟨by simp [coordStep], fun hc => by simp [coordStep] at hc⟩
  | opStop => exact ⟨by simp [coordStep], fun hc => by simp [coordStep] at hc⟩
  | opReset => exact ih
  | wakeResult now pieces =>
      rcases wakeMonitor_status_isActive cfg.wakeWord
        { s with wakeWordSpeech := onresult now pieces s.wakeWordSpeech } with ⟨h1, h2⟩ | ⟨h1, h2⟩
      · constructor
        · show (wakeMonitor _ _).status ≠ _
          rw [h1]; exact ih.1
        · intro hc
          show (wakeMonitor _ _).isActive = true
          rw [h2]
          refine ih.2 ?_
          rw [show ({ s with wakeWordSpeech := onresult now pieces s.wakeWordSpeech } :
            CoordState).status = s.status from rfl] at h1
          rw [← h1]
          exact hc
      · exact ⟨by rw [show (coordStep cfg s (.wakeResult now pieces)).status =
          (wakeMonitor cfg.wakeWord _).status from rfl, h1]; simp, fun _ => h2⟩
  | transcriptionResult now pieces =>
      rcases sleepMonitor_status_isActive cfg.sleepWord
        { s with transcriptionSpeech := onresult now pieces s.transcriptionSpeech } with
        ⟨h1, h2⟩ | ⟨h1, h2⟩
      · constructor
        · show (sleepMonitor _ _).status ≠ _
          rw [h1]; exact ih.1
        · intro hc
          show (sleepMonitor _ _).isActive = true
          rw [h2]
          refine ih.2 ?_
          rw [show ({ s with transcriptionSpeech := onresult now pieces s.transcriptionSpeech } :
            CoordState).status = s.status from rfl] at h1
          rw [← h1]
          exact hc
      · exact ⟨by rw [show (coordStep cfg s (.transcriptionResult now pieces)).status =
          (sleepMonitor cfg.sleepWord _).status from rfl, h1]; simp, fun hc => by
          rw [show (coordStep cfg s (.transcriptionResult now pieces)).status =
            (sleepMonitor cfg.sleepWord _).status from rfl, h1] at hc
          cases hc⟩
  | wakeErrorEv r => exact ih
  | transcriptionErrorEv r => exact ih
  | wakeEnd => exact ih
  | transcriptionEnd => exact ih
  | transcriptionStartTimer => simp only [coordStep]; split <;> exact ih
  | wakeRestartTimer => simp only [coordStep]; split <;> exact ih
  | burstRestartTimer => simp only [coordStep]; split <;> exact ih
  | wakeMonitorRun =>
      rcases wakeMonitor_status_isActive cfg.wakeWord s with ⟨h1, h2⟩ | ⟨h1, h2⟩
      · constructor
        · intro hc
          have hc1 : (wakeMonitor cfg.wakeWord s).status = CoordStatus.error := hc
          rw [h1] at hc1
          exact ih.1 hc1
        · intro hc
          have hc1 : (wakeMonitor cfg.wakeWord s).status =
              CoordStatus.activeTranscription := hc
          rw [h1] at hc1
          show (wakeMonitor cfg.wakeWord s).isActive = true
          rw [h2]
          exact ih.2 hc1
      · constructor
        · intro hc
          have hc1 : (wakeMonitor cfg.wakeWord s).status = CoordStatus.error := hc
          rw [h1] at hc1
          cases hc1
        · intro _
          exact h2
  | sleepMonitorRun =>
      rcases sleepMonitor_status_isActive cfg.sleepWord s with ⟨h1, h2⟩ | ⟨h1, h2⟩
      · constructor
        · intro hc
          have hc1 : (sleepMonitor cfg.sleepWord s).status = CoordStatus.error := hc
          rw [h1] at hc1
          exact ih.1 hc1
        · intro hc
          have hc1 : (sleepMonitor cfg.sleepWord s).status =
              CoordStatus.activeTranscription := hc
          rw [h1] at hc1
          show (sleepMonitor cfg.sleepWord s).isActive = true
          rw [h2]
          exact ih.2 hc1
      · constructor
        · intro hc
          have hc1 : (sleepMonitor cfg.sleepWord s).status = CoordStatus.error := hc
          rw [h1] at hc1
          cases hc1
        · intro hc
          have hc1 : (sleepMonitor cfg.sleepWord s).status =
              CoordStatus.activeTranscription := hc
          rw [h1] at hc1
          cases hc1

/-- In every reachable coordinator state the status is never the `error`
value, and status `active-transcription` forces `isActive`. -/
theorem reach_status_facts (cfg : WakeWordConfig) (s : CoordState) (h : Reachable cfg s) :
    s.status ≠ CoordStatus.error ∧
    (s.status = CoordStatus.activeTranscription → s.isActive = true) := by
  induction h with
  | init => exact ⟨by simp [coordInit], fun hc => by simp [coordInit] at hc⟩
  | next e h ih => exact coordStep_status_facts _ _ e ih

/-- One coordinator step keeps both adapters' errors different from the
empty string. -/
theorem coordStep_error_facts (cfg : WakeWordConfig) (s : CoordState) (e : CoordEvent)
    (ih : s.wakeWordSpeech.error ≠ some "" ∧ s.transcriptionSpeech.error ≠ some "") :
    (coordStep cfg s e).wakeWordSpeech.error ≠ some "" ∧
    (coordStep cfg s e).transcriptionSpeech.error ≠ some "" := by
  have hstart : ∀ x : SpeechState, x.error ≠ some "" → (startListening x).error ≠ some "" := by
    intro x hx
    rcases startListening_error_cases x with h | h | h <;> rw [h]
    · exact hx
    · simp
    · simp
  cases e with
  | opStart => exact ⟨hstart _ ih.1, ih.2⟩
  | opStop =>
      constructor
      · show (stopListening s.wakeWordSpeech).error ≠ some ""
        rw [stopListening_error]; exact ih.1
      · show (stopListening s.transcriptionSpeech).error ≠ some ""
        rw [stopListening_error]; exact ih.2
  | opReset => exact ih
  | wakeResult now pieces =>
      constructor
      · show (wakeMonitor _ _).wakeWordSpeech.error ≠ some ""
        rw [wakeMonitor_wake_error]
        simpa using ih.1
      · show (wakeMonitor _ _).transcriptionSpeech.error ≠ some ""
        rw [wakeMonitor_transcription]
        exact ih.2
  | transcriptionResult now pieces =>
      constructor
      · show (sleepMonitor _ _).wakeWordSpeech.error ≠ some ""
        rw [sleepMonitor_wake]
        exact ih.1
      · show (sleepMonitor _ _).transcriptionSpeech.error ≠ some ""
        rw [sleepMonitor_transcription_error]
        simpa using ih.2
  | wakeErrorEv r =>
      refine ⟨?_, ih.2⟩
      show (onerror r s.wakeWordSpeech).error ≠ some ""
      unfold onerror
      simp only []
      intro hc
      exact errorMessage_ne_empty r (by simpa using hc)
  | transcriptionErrorEv r =>
      refine ⟨ih.1, ?_⟩
      show (onerror r s.transcriptionSpeech).error ≠ some ""
      unfold onerror
      simp only []
      intro hc
      exact errorMessage_ne_empty r (by simpa using hc)
  | wakeEnd =>
      refine ⟨?_, ih.2⟩
      show (onend s.wakeWordSpeech).error ≠ some ""
      rw [onend_error]; exact ih.1
  | transcriptionEnd =>
      refine ⟨ih.1, ?_⟩
      show (onend s.transcriptionSpeech).error ≠ some ""
      rw [onend_error]; exact ih.2
  | transcriptionStartTimer =>
      simp only [coordStep]; split
      · exact ⟨ih.1, hstart _ ih.2⟩
      · exact ih
  | wakeRestartTimer =>
      simp only [coordStep]; split
      · exact ⟨hstart _ ih.1, ih.2⟩
      · exact ih
  | burstRestartTimer =>
      simp only [coordStep]; split
      · exact ⟨hstart _ ih.1, ih.2⟩
      · exact ih
  | wakeMonitorRun =>
      constructor
      · show (wakeMonitor cfg.wakeWord s).wakeWordSpeech.error ≠ some ""
        rw [wakeMonitor_wake_error]
        exact ih.1
      · show (wakeMonitor cfg.wakeWord s).transcriptionSpeech.error ≠ some ""
        rw [wakeMonitor_transcription]
        exact ih.2
  | sleepMonitorRun =>
      constructor
      · show (sleepMonitor cfg.sleepWord s).wakeWordSpeech.error ≠ some ""
        rw [sleepMonitor_wake]
        exact ih.1
      · show (sleepMonitor cfg.sleepWord s).transcriptionSpeech.error ≠ some ""
        rw [sleepMonitor_transcription_error]
        exact ih.2

/-- In every reachable coordinator state neither adapter's error is the
empty string. -/
theorem reach_error_facts (cfg : WakeWordConfig) (s : CoordState) (h : Reachable cfg s) :
    s.wakeWordSpeech.error ≠ some "" ∧ s.transcriptionSpeech.error ≠ some "" := by
  induction h with
  | init => simp [coordInit, initialSpeechState]
  | next e h ih => exact coordStep_error_facts _ _ e ih

end InvariantLemmas

/-- Coordinator state after activation followed by twice delivering the
same finalized segment (same clock reading, hence the same id
`transcript-2`) from the transcription adapter: the duplicate delivery is
skipped by the merge. -/
def demoDuplicateState : CoordState :=
  coordStep demoCfg
    (coordStep demoCfg (coordStep demoCfg demoWakeState .transcriptionStartTimer)
      (.transcriptionResult 2 [⟨"hello world", true⟩]))
    (.transcriptionResult 2 [⟨"hello world", true⟩])

/-- C1: for every sequence of events — in particular every sequence of
finalized-segment deliveries from the transcription adapter, including
deliveries that repeat a segment id already merged — the merged history
`allTranscripts` never contains two entries with the same id. -/
theorem merged_history_ids_unique (cfg : WakeWordConfig) (s : CoordState)
    (h : Reachable cfg s) : (s.allTranscripts.map WakeTranscript.id).Nodup :=
  reach_nodup cfg s h

/-- Witness for `merged_history_ids_unique` on the concrete
duplicate-delivery trace: the segment with id `transcript-2` is delivered
twice and merged once. -/
theorem merged_history_ids_unique_witness :
    (demoDuplicateState.allTranscripts.map WakeTranscript.id).Nodup :=
  merged_history_ids_unique demoCfg demoDuplicateState
    (Reachable.next _ (Reachable.next _ (Reachable.next _
      (Reachable.next _ (Reachable.next _ Reachable.init)))))

/-- C10: in every reachable coordinator state the status output is never
the `error` value, although `error` is a member of the declared status
type. -/
theorem status_never_error (cfg : WakeWordConfig) (s : CoordState)
    (h : Reachable cfg s) : s.status ≠ CoordStatus.error :=
  (reach_status_facts cfg s h).1

/-- Witness for `status_never_error` at a concrete reachable state with a
non-null error output: after a capability error event the status is still
not the `error` value. -/
theorem status_never_error_witness :
    (coordStep demoCfg coordInit (.wakeErrorEv "network")).status ≠ CoordStatus.error :=
  status_never_error demoCfg _ (Reachable.next _ Reachable.init)

/-- C5 counterexample: run `start()`, let the wake-word adapter finalize
`hi there` (activation: `isActive` true, status `active-transcription`),
then call `start()` again.  `start` sets status to `waiting-for-wake-word`
but never touches `isActive` (source lines 124-128), so `isActive` is true
while the status is not `active-transcription`, refuting the claimed
equivalence. -/
theorem start_while_transcribing_breaks_active_iff :
    (coordStep demoCfg demoWakeState .opStart).isActive = true ∧
    ¬ ((coordStep demoCfg demoWakeState .opStart).status =
        CoordStatus.activeTranscription) := by
  decide

/-- C5 amended: in every reachable coordinator state, status
`active-transcription` implies `isActive`; the converse implication fails
(see the counterexample where `start()` is called while transcribing). -/
theorem active_transcription_implies_isActive (cfg : WakeWordConfig) (s : CoordState)
    (h : Reachable cfg s) :
    s.status = CoordStatus.activeTranscription → s.isActive = true :=
  (reach_status_facts cfg s h).2

/-- Witness for `active_transcription_implies_isActive` at the concrete
activated state reached by `start()` plus a wake-word match. -/
theorem active_transcription_implies_isActive_witness :
    demoWakeState.isActive = true :=
  active_transcription_implies_isActive demoCfg demoWakeState
    (Reachable.next _ (Reachable.next _ Reachable.init)) (by decide)

/-- C8 counterexample: on an error signal with reason `network` the
adapter stores `Error: network` (template literal, source line 97), not
the reported reason string itself. -/
theorem onerror_prefixes_reason :
    ¬ ((onerror "network" initialSpeechState).error = some "network") := by
  decide

/-- C8 amended: on an error signal the adapter sets its error to the
reported reason prefixed with `Error: ` and stops listening; the
coordinator's error output equals the activation adapter's error when that
is non-null and otherwise the transcription adapter's error, neither value
modified by the coordinator. -/
theorem error_reporting_and_propagation :
    (∀ (cfg : WakeWordConfig) (s : CoordState) (reason : String),
      (coordStep cfg s (.wakeErrorEv reason)).wakeWordSpeech.error =
        some ("Error: " ++ reason) ∧
      (coordStep cfg s (.wakeErrorEv reason)).wakeWordSpeech.isListening = false ∧
      (coordStep cfg s (.transcriptionErrorEv reason)).transcriptionSpeech.error =
        some ("Error: " ++ reason) ∧
      (coordStep cfg s (.transcriptionErrorEv reason)).transcriptionSpeech.isListening =
        false) ∧
    (∀ (cfg : WakeWordConfig) (s : CoordState), Reachable cfg s →
      errorOutput s = Option.or s.wakeWordSpeech.error s.transcriptionSpeech.error) := by
  constructor
  · intro cfg s reason
    exact ⟨rfl, rfl, rfl, rfl⟩
  · intro cfg s h
    have hw := (reach_error_facts cfg s h).1
    unfold errorOutput jsOrError
    cases hww : s.wakeWordSpeech.error with
    | none => rfl
    | some e =>
      rw [hww] at hw
      have he : e ≠ "" := fun hc => hw (by rw [hc])
      simp [he]

/-- Witness for `error_reporting_and_propagation` at the concrete
reachable state produced by an activation-adapter error event. -/
theorem error_reporting_and_propagation_witness :
    errorOutput (coordStep demoCfg coordInit (.wakeErrorEv "network")) =
      Option.or (coordStep demoCfg coordInit (.wakeErrorEv "network")).wakeWordSpeech.error
        (coordStep demoCfg coordInit (.wakeErrorEv "network")).transcriptionSpeech.error :=
  error_reporting_and_propagation.2 demoCfg _ (Reachable.next _ Reachable.init)

section WakeTransition

/-- A single-piece finalized result event carries `finalTranscript = text
++ " "` (source line 75). -/
theorem finalTranscript_single (t : String) : finalTranscript [⟨t, true⟩] = t ++ " " := rfl

/-- A single-piece finalized result event carries no interim text. -/
theorem interimTranscript_single (t : String) : interimTranscript [⟨t, true⟩] = "" := rfl

/-- Appending the final-piece separator space never yields the empty
string. -/
theorem append_space_ne_empty (t : String) : t ++ " " ≠ "" := by
  intro h
  have hlen := congrArg String.length h
  rw [String.length_append] at hlen
  have h1 : (" " : String).length = 1 := by decide
  have h0 : ("" : String).length = 0 := by decide
  omega

/-- History effect of a result event with exactly one finalized piece: one
entry is appended, with the trimmed text and the clock-derived id. -/
theorem onresult_single_final_history (now : Nat) (t : String) (s : SpeechState) :
    (onresult now [⟨t, true⟩] s).transcriptHistory =
      s.transcriptHistory ++
        [{ id := "transcript-" ++ toString now, text := jsTrim (t ++ " "),
           timestamp := now, isFinal := true }] := by
  unfold onresult
  dsimp only
  rw [finalTranscript_single, if_neg (append_space_ne_empty t)]

/-- Evaluation of the wake-word monitor when its guard holds and the
history's most recent entry is known. -/
theorem wakeMonitor_eval (w : String) (s : CoordState) (e : TranscriptEntry)
    (hA : s.isActive = false) (hL : s.wakeWordSpeech.isListening = true)
    (hLast : s.wakeWordSpeech.transcriptHistory.getLast? = some e) :
    wakeMonitor w s =
      if jsIncludes (jsTrim (jsToLower e.text)) (jsToLower w) then
        { s with wakeWordSpeech := stopListening s.wakeWordSpeech,
                 isActive := true, status := CoordStatus.activeTranscription,
                 pendingTranscriptionStart := true }
      else s := by
  unfold wakeMonitor
  rw [if_pos ⟨hA, hL⟩, hLast]

/-- One finalized-segment delivery to the wake-word adapter: the result
event followed by the wake-word monitor effect. -/
def deliverWakeFinal (cfg : WakeWordConfig) (s : CoordState) (p : Nat × String) : CoordState :=
  coordStep cfg s (.wakeResult p.1 [⟨p.2, true⟩])

/-- Folding a whole sequence of finalized-segment deliveries to the
wake-word adapter. -/
def runWakeDeliveries (cfg : WakeWordConfig) (s : CoordState) (l : List (Nat × String)) :
    CoordState :=
  l.foldl (deliverWakeFinal cfg) s

/-- The match test the coordinator applies to a delivered text `t`: the
stored segment text is `jsTrim (t ++ " ")` (adapter, line 87), and the
monitor lowercases and trims it and tests substring containment of the
lowercased wake word (lines 68-72). -/
def wakeHit (w t : String) : Bool :=
  jsIncludes (jsTrim (jsToLower (jsTrim (t ++ " ")))) (jsToLower w)

/-- A delivery to the wake-word adapter while the coordinator is already
active leaves `isActive` and the status unchanged. -/
theorem deliverWakeFinal_active (cfg : WakeWordConfig) (s : CoordState) (p : Nat × String)
    (h : s.isActive = true) :
    (deliverWakeFinal cfg s p).isActive = true ∧
    (deliverWakeFinal cfg s p).status = s.status := by
  have hg : deliverWakeFinal cfg s p =
      wakeMonitor cfg.wakeWord
        { s with wakeWordSpeech := onresult p.1 [⟨p.2, true⟩] s.wakeWordSpeech } := rfl
  rw [hg]
  unfold wakeMonitor
  rw [if_neg (fun hc => absurd (show s.isActive = false from hc.1) (by rw [h]; simp))]
  exact ⟨h, rfl⟩

/-- Once the coordinator is active, further wake-word deliveries change
neither `isActive` nor the status. -/
theorem runWakeDeliveries_active (cfg : WakeWordConfig) (l : List (Nat × String))
    (s : CoordState) (h : s.isActive = true) :
    (runWakeDeliveries cfg s l).isActive = true ∧
    (runWakeDeliveries cfg s l).status = s.status := by
  induction l generalizing s with
  | nil => exact ⟨h, rfl⟩
  | cons p rest ih =>
      have hd := deliverWakeFinal_active cfg s p h
      have hr := ih (deliverWakeFinal cfg s p) hd.1
      exact ⟨hr.1, hr.2.trans hd.2⟩

/-- Evaluation of the wake-word monitor on a matching newest segment. -/
theorem wakeMonitor_hit (w : String) (s : CoordState) (e : TranscriptEntry)
    (hA : s.isActive = false) (hL : s.wakeWordSpeech.isListening = true)
    (hLast : s.wakeWordSpeech.transcriptHistory.getLast? = some e)
    (hhit : jsIncludes (jsTrim (jsToLower e.text)) (jsToLower w) = true) :
    (wakeMonitor w s).isActive = true ∧
    (wakeMonitor w s).status = CoordStatus.activeTranscription := by
  rw [wakeMonitor_eval w s e hA hL hLast, if_pos hhit]
  exact ⟨rfl, rfl⟩

/-- Evaluation of the wake-word monitor on a non-matching newest segment:
a no-op. -/
theorem wakeMonitor_miss (w : String) (s : CoordState) (e : TranscriptEntry)
    (hA : s.isActive = false) (hL : s.wakeWordSpeech.isListening = true)
    (hLast : s.wakeWordSpeech.transcriptHistory.getLast? = some e)
    (hmiss : jsIncludes (jsTrim (jsToLower e.text)) (jsToLower w) = false) :
    wakeMonitor w s = s := by
  rw [wakeMonitor_eval w s e hA hL hLast, if_neg]
  intro hc
  rw [hmiss] at hc
  exact absurd hc (by simp)

/-- Characterization of the delivery-only path: while the coordinator is
in `WaitingForWake` with the activation adapter listening, a sequence of
finalized-segment deliveries (with no interleaved monitor re-runs) moves
the phase to Transcribing (status `active-transcription`, `isActive`
true) if and only if some delivered segment's lowercased, trimmed text
contains the lowercased activation phrase as a substring.  This covers
only event sequences made of `wakeResult` events; the re-run events
forced by the effect's dependency array can additionally re-evaluate a
stale matching segment and transition with no delivery at all (see the
stale-segment theorem below), which is why the corresponding claim does
not hold of the program as a whole. -/
theorem wake_transition_iff (cfg : WakeWordConfig) (s : CoordState) (l : List (Nat × String))
    (hA : s.isActive = false) (hL : s.wakeWordSpeech.isListening = true)
    (hS : s.status = CoordStatus.waitingForWakeWord) :
    ((runWakeDeliveries cfg s l).status = CoordStatus.activeTranscription ∧
      (runWakeDeliveries cfg s l).isActive = true) ↔
    ∃ p ∈ l, wakeHit cfg.wakeWord p.2 = true := by
  induction l generalizing s with
  | nil =>
      constructor
      · intro hc
        rw [show runWakeDeliveries cfg s [] = s from rfl, hS] at hc
        cases hc.1
      · rintro ⟨p, hp, _⟩
        cases hp
  | cons p rest ih =>
      obtain ⟨n, t⟩ := p
      have hrun : runWakeDeliveries cfg s ((n, t) :: rest) =
          runWakeDeliveries cfg
            (wakeMonitor cfg.wakeWord
              { s with wakeWordSpeech := onresult n [⟨t, true⟩] s.wakeWordSpeech }) rest := rfl
      have hA' : ({ s with wakeWordSpeech := onresult n [⟨t, true⟩] s.wakeWordSpeech } :
          CoordState).isActive = false := hA
      have hL' : ({ s with wakeWordSpeech := onresult n [⟨t, true⟩] s.wakeWordSpeech } :
          CoordState).wakeWordSpeech.isListening = true := by
        show (onresult n [⟨t, true⟩] s.wakeWordSpeech).isListening = true
        rw [onresult_isListening]; exact hL
      have hLast : ({ s with wakeWordSpeech := onresult n [⟨t, true⟩] s.wakeWordSpeech } :
          CoordState).wakeWordSpeech.transcriptHistory.getLast? =
          some { id := "transcript-" ++ toString n, text := jsTrim (t ++ " "),
                 timestamp := n, isFinal := true } := by
        show (onresult n [⟨t, true⟩] s.wakeWordSpeech).transcriptHistory.getLast? = _
        rw [onresult_single_final_history]
        exact List.getLast?_concat _
      rw [hrun]
      by_cases hHit : wakeHit cfg.wakeWord t = true
      · have hm := wakeMonitor_hit cfg.wakeWord _ _ hA' hL' hLast hHit
        have h2 := runWakeDeliveries_active cfg rest _ hm.1
        refine iff_of_true ⟨?_, h2.1⟩ ⟨(n, t), List.mem_cons_self _ _, hHit⟩
        rw [h2.2, hm.2]
      · have hmiss : wakeHit cfg.wakeWord t = false := by
          cases hval : wakeHit cfg.wakeWord t
          · rfl
          · exact absurd hval hHit
        have hm := wakeMonitor_miss cfg.wakeWord _ _ hA' hL' hLast hmiss
        rw [hm]
        rw [ih _ hA' hL' (show _ = _ from hS)]
        constructor
        · rintro ⟨q, hq, hh⟩
          exact ⟨q, List.mem_cons_of_mem _ hq, hh⟩
        · rintro ⟨q, hq, hh⟩
          rcases List.mem_cons.1 hq with hq1 | hq2
          · subst hq1
            exact absurd hh hHit
          · exact ⟨q, hq2, hh⟩

/-- Instance of `wake_transition_iff` on a concrete run: after `start()`,
delivering `hello` and then `say hi now` with wake word `hi`. -/
theorem wake_transition_iff_witness :
    ((runWakeDeliveries demoCfg (coordStep demoCfg coordInit .opStart)
        [(1, "hello"), (2, "say hi now")]).status = CoordStatus.activeTranscription ∧
      (runWakeDeliveries demoCfg (coordStep demoCfg coordInit .opStart)
        [(1, "hello"), (2, "say hi now")]).isActive = true) ↔
    ∃ p ∈ [((1 : Nat), "hello"), (2, "say hi now")], wakeHit demoCfg.wakeWord p.2 = true :=
  wake_transition_iff demoCfg (coordStep demoCfg coordInit .opStart)
    [(1, "hello"), (2, "say hi now")] (by decide) (by decide) (by decide)

/-- Coordinator state after a full wake/sleep cycle followed by the wake
restart: `start()`, the wake-word adapter finalizes `hi there`
(activation), the hand-off timer starts the transcription adapter, the
transcription adapter finalizes `ok bye now` (sleep match: back to
`WaitingForWake`, wake restart scheduled), and the wake-restart timer
fires.  The wake-word adapter is listening again and its history — never
cleared — still ends with the old matching segment `hi there`. -/
def demoStaleWakeState : CoordState :=
  coordStep demoCfg
    (coordStep demoCfg
      (coordStep demoCfg demoWakeState .transcriptionStartTimer)
      (.transcriptionResult 2 [⟨"ok bye now", true⟩]))
    .wakeRestartTimer

/-- C2 failing input: in the post-sleep state `demoStaleWakeState` the
coordinator is in `WaitingForWake` with the wake-word adapter listening,
and a re-run of the wake-word monitor effect — which the source forces
after every render, because the dependency array at line 84 holds
`isActive` and the per-render adapter objects — re-evaluates the stale
last segment `hi there` and transitions back to Transcribing although no
new segment was delivered (the wake history is unchanged).  This violates
the claim that the transition happens only at a newly delivered matching
segment, that each new segment is checked exactly once, and that earlier
segments are never re-evaluated. -/
theorem stale_wake_segment_retriggers_without_new_delivery :
    demoStaleWakeState.isActive = false ∧
    demoStaleWakeState.status = CoordStatus.waitingForWakeWord ∧
    demoStaleWakeState.wakeWordSpeech.isListening = true ∧
    (coordStep demoCfg demoStaleWakeState .wakeMonitorRun).isActive = true ∧
    (coordStep demoCfg demoStaleWakeState .wakeMonitorRun).status =
      CoordStatus.activeTranscription ∧
    (coordStep demoCfg demoStaleWakeState .wakeMonitorRun).wakeWordSpeech.transcriptHistory =
      demoStaleWakeState.wakeWordSpeech.transcriptHistory := by
  decide

end WakeTransition

section ResultEventHistory

/-- A string with the final-piece separator appended on the left is never
empty. -/
theorem string_length_zero_iff (s : String) : s.length = 0 ↔ s = "" := by
  constructor
  · intro h
    cases s with
    | mk d =>
      cases d with
      | nil => rfl
      | cons c cs => simp [String.length] at h
  · intro h; subst h; decide

/-- Appending to a non-empty string keeps it non-empty. -/
theorem append_ne_empty_of_left (a b : String) (h : a ≠ "") : a ++ b ≠ "" := by
  intro hc
  have hlen := congrArg String.length hc
  rw [String.length_append] at hlen
  have ha : a.length ≠ 0 := fun h0 => h ((string_length_zero_iff a).1 h0)
  have h0 : ("" : String).length = 0 := by decide
  omega

/-- The final-piece accumulator is a left-append homomorphism in its
starting accumulator. -/
theorem finalTranscript_aux (l : List ResultPiece) (acc : String) :
    l.foldl (fun acc p => if p.isFinal then acc ++ p.transcript ++ " " else acc) acc =
      acc ++ finalTranscript l := by
  induction l generalizing acc with
  | nil => simp [finalTranscript]
  | cons p rest ih =>
      unfold finalTranscript
      simp only [List.foldl_cons]
      by_cases hp : p.isFinal = true
      · rw [if_pos hp, if_pos hp, ih, ih ("" ++ p.transcript ++ " ")]
        simp [String.append_assoc]
      · rw [if_neg hp, if_neg hp, ih]
        rfl

/-- The accumulated final text is empty exactly when the event carries no
final piece. -/
theorem finalTranscript_empty_iff (l : List ResultPiece) :
    finalTranscript l = "" ↔ l.any ResultPiece.isFinal = false := by
  induction l with
  | nil => simp [finalTranscript]
  | cons p rest ih =>
      have hstep : finalTranscript (p :: rest) =
          (if p.isFinal then "" ++ p.transcript ++ " " else "") ++ finalTranscript rest := by
        unfold finalTranscript
        simp only [List.foldl_cons]
        rw [finalTranscript_aux rest]
        by_cases hp : p.isFinal = true
        · rw [if_pos hp]; rfl
        · rw [if_neg hp]; rfl
      rw [hstep, List.any_cons]
      by_cases hp : p.isFinal = true
      · rw [if_pos hp, hp]
        constructor
        · intro hc
          exact absurd hc (append_ne_empty_of_left _ _ (append_space_ne_empty _))
        · intro hc; simp at hc
      · have hp' : p.isFinal = false := by
          cases hv : p.isFinal
          · rfl
          · exact absurd hv hp
        rw [if_neg hp, hp']
        simpa using ih

/-- History effect of an arbitrary result event: exactly one entry is
appended when and only when the event carries at least one final piece,
with the trimmed accumulated final text and the clock-derived id. -/
theorem onresult_history_eq (now : Nat) (pieces : List ResultPiece) (s : SpeechState) :
    (onresult now pieces s).transcriptHistory =
      if pieces.any ResultPiece.isFinal then
        s.transcriptHistory ++
          [{ id := "transcript-" ++ toString now, text := jsTrim (finalTranscript pieces),
             timestamp := now, isFinal := true }]
      else s.transcriptHistory := by
  unfold onresult
  dsimp only
  by_cases h : finalTranscript pieces = ""
  · rw [if_pos h, (finalTranscript_empty_iff pieces).1 h]
    simp
  · have hany : pieces.any ResultPiece.isFinal = true := by
      cases hv : pieces.any ResultPiece.isFinal
      · exact absurd ((finalTranscript_empty_iff pieces).2 hv) h
      · rfl
    rw [if_neg h, hany]
    simp

end ResultEventHistory

section NatReprInjective

/-- Digit characters of distinct decimal digits are distinct. -/
theorem digitChar_inj : ∀ a < 10, ∀ b < 10, Nat.digitChar a = Nat.digitChar b → a = b := by
  decide

/-- Mapping `Nat.digitChar` over lists of decimal digits is injective. -/
theorem map_digitChar_inj : ∀ (l1 l2 : List Nat), (∀ x ∈ l1, x < 10) → (∀ x ∈ l2, x < 10) →
    l1.map Nat.digitChar = l2.map Nat.digitChar → l1 = l2
  | [], [], _, _, _ => rfl
  | [], _ :: _, _, _, h => by simp at h
  | _ :: _, [], _, _, h => by simp at h
  | a :: t1, b :: t2, h1, h2, h => by
      simp only [List.map_cons, List.cons.injEq] at h
      have ha : a < 10 := h1 a (by simp)
      have hb : b < 10 := h2 b (by simp)
      have hab : a = b := digitChar_inj a ha b hb h.1
      have ht := map_digitChar_inj t1 t2 (fun x hx => h1 x (by simp [hx]))
        (fun x hx => h2 x (by simp [hx])) h.2
      rw [hab, ht]

/-- With enough fuel, the core digit printer emits exactly the reversed
decimal digit characters. -/
theorem toDigitsCore_eq_digits (f : Nat) : ∀ (n : Nat) (l : List Char), 0 < n → n ≤ f →
    Nat.toDigitsCore 10 f n l = ((Nat.digits 10 n).map Nat.digitChar).reverse ++ l := by
  induction f with
  | zero => intro n l hn hf; omega
  | succ f ih =>
      intro n l hn hf
      rw [show Nat.toDigitsCore 10 (f + 1) n l =
          (if n / 10 = 0 then Nat.digitChar (n % 10) :: l
           else Nat.toDigitsCore 10 f (n / 10) (Nat.digitChar (n % 10) :: l)) from by
        simp [Nat.toDigitsCore]]
      rw [Nat.digits_def' (by norm_num : (1 : Nat) < 10) hn]
      by_cases hdiv : n / 10 = 0
      · rw [if_pos hdiv, hdiv]
        simp
      · rw [if_neg hdiv]
        have h1 : 0 < n / 10 := Nat.pos_of_ne_zero hdiv
        have h2 : n / 10 ≤ f := by
          have := Nat.div_lt_self hn (by norm_num : 1 < 10)
          omega
        rw [ih (n / 10) (Nat.digitChar (n % 10) :: l) h1 h2]
        simp [List.append_assoc]

/-- The decimal printer emits the reversed digit characters, with `0`
printed as the single digit `0`. -/
theorem toDigits_ten_eq (n : Nat) :
    Nat.toDigits 10 n =
      ((if n = 0 then [0] else Nat.digits 10 n).map Nat.digitChar).reverse := by
  by_cases h : n = 0
  · subst h; rfl
  · rw [if_neg h]
    have h0 : 0 < n := Nat.pos_of_ne_zero h
    have hmain := toDigitsCore_eq_digits (n + 1) n [] h0 (by omega)
    rw [show Nat.toDigits 10 n = Nat.toDigitsCore 10 (n + 1) n [] from rfl, hmain]
    simp

/-- The decimal rendering of a natural number determines the number. -/
theorem toString_nat_injective (a b : Nat) (h : toString a = toString b) : a = b := by
  have hs : (Nat.toDigits 10 a).asString = (Nat.toDigits 10 b).asString := h
  have hr : Nat.toDigits 10 a = Nat.toDigits 10 b := by
    have hd := congrArg String.data hs
    simpa using hd
  rw [toDigits_ten_eq, toDigits_ten_eq] at hr
  have hrev := List.reverse_injective hr
  have hlt1 : ∀ x ∈ (if a = 0 then [0] else Nat.digits 10 a), x < 10 := by
    split
    · intro x hx; simp at hx; omega
    · intro x hx; exact Nat.digits_lt_base (by norm_num) hx
  have hlt2 : ∀ x ∈ (if b = 0 then [0] else Nat.digits 10 b), x < 10 := by
    split
    · intro x hx; simp at hx; omega
    · intro x hx; exact Nat.digits_lt_base (by norm_num) hx
  have hlists := map_digitChar_inj _ _ hlt1 hlt2 hrev
  by_cases ha : a = 0 <;> by_cases hb : b = 0
  · omega
  · rw [if_pos ha, if_neg hb] at hlists
    have hof := congrArg (Nat.ofDigits 10) hlists
    rw [Nat.ofDigits_digits] at hof
    simp [Nat.ofDigits] at hof
    omega
  · rw [if_neg ha, if_pos hb] at hlists
    have hof := congrArg (Nat.ofDigits 10) hlists
    rw [Nat.ofDigits_digits] at hof
    simp [Nat.ofDigits] at hof
    omega
  · rw [if_neg ha, if_neg hb] at hlists
    have hof := congrArg (Nat.ofDigits 10) hlists
    rw [Nat.ofDigits_digits, Nat.ofDigits_digits] at hof
    exact hof

end NatReprInjective

/-- C7 counterexample: (i) a result event with one final piece whose text
is empty has an empty trimmed space-joined concatenation, yet a segment is
appended (the source guard, line 84, tests the untrimmed accumulator,
which holds a bare separator space); (ii) two result events processed at
the same clock reading append segments with identical ids
(`transcript-${Date.now()}`, line 86), so the generated id can equal one
already in the history. -/
theorem append_despite_empty_text_and_id_collision :
    (onresult 5 [⟨"", true⟩] initialSpeechState).transcriptHistory.length = 1 ∧
    jsTrim (finalTranscript [⟨"", true⟩]) = "" ∧
    ((onresult 5 [⟨"b", true⟩] (onresult 5 [⟨"a", true⟩] initialSpeechState)).transcriptHistory.map
        TranscriptEntry.id) = ["transcript-5", "transcript-5"] := by
  decide

/-- C7 amended: a result event appends exactly one segment if and only if
the event carries at least one final piece (not: if the trimmed
space-joined concatenation is non-empty), with text equal to the trimmed
space-joined concatenation of the final pieces and id
`transcript-<clock>`; the id determines the clock value, so segments
created at pairwise-distinct clock readings have pairwise-distinct ids,
while segments created at the same clock reading share one id. -/
theorem onresult_append_iff_final_and_fresh_ids :
    (∀ (now : Nat) (pieces : List ResultPiece) (s : SpeechState),
      (onresult now pieces s).transcriptHistory =
        if pieces.any ResultPiece.isFinal then
          s.transcriptHistory ++
            [{ id := "transcript-" ++ toString now, text := jsTrim (finalTranscript pieces),
               timestamp := now, isFinal := true }]
        else s.transcriptHistory) ∧
    (∀ a b : Nat, ("transcript-" ++ toString a : String) = "transcript-" ++ toString b →
      a = b) := by
  constructor
  · exact onresult_history_eq
  · intro a b h
    have hd := congrArg String.data h
    rw [String.data_append, String.data_append] at hd
    exact toString_nat_injective a b (String.ext (List.append_cancel_left hd))

/-- Witness for `onresult_append_iff_final_and_fresh_ids` at a concrete
event and a concrete id equation. -/
theorem onresult_append_iff_final_and_fresh_ids_witness :
    (onresult 7 [⟨"hi", true⟩] initialSpeechState).transcriptHistory =
      [{ id := "transcript-7", text := "hi", timestamp := 7, isFinal := true }] ∧
    (7 : Nat) = 7 :=
  ⟨(onresult_append_iff_final_and_fresh_ids.1 7 [⟨"hi", true⟩] initialSpeechState).trans
    (by decide),
   onresult_append_iff_final_and_fresh_ids.2 7 7 rfl⟩
